import Mathlib

/-!
Verification of the G1 heap-evaluation control loop
(`src/hotspot/share/gc/g1/g1HeapEvaluationTask.cpp` and
`src/hotspot/share/gc/g1/g1HeapOperationCallback.hpp`).

One invocation of `G1HeapEvaluationTask::execute` is embedded as a pure
function from an environment (the global feature flag
`G1UseTimeBasedHeapSizing`, the global interval
`G1TimeBasedEvaluationIntervalMillis`, the behaviour of the
`G1HeapSizingPolicy` collaborator, the heap's worker set, and whether the
heap's `expand` succeeds) to the ordered list of observable calls the body
performs, together with the task's own state threaded through unchanged
wherever the source does not mutate it.
-/

namespace G1Heap

/-- One observable action of `G1HeapEvaluationTask::execute`, in program
order.  `resourceMarkAcquire`/`resourceMarkRelease` are the construction
and (RAII) destruction of the `ResourceMark rm` local;
`evaluateHeapResize b` records the call into the sizing policy with `b`
the value held by the `should_expand` out-parameter at the moment of the
call; `expand` records the amount, the worker-set id and the success bit
returned by `G1CollectedHeap::expand` (a return value the caller
discards); `requestHeapShrink` and `schedule` record their arguments. -/
inductive Event where
  | logDebug (msg : String)
  | resourceMarkAcquire
  | resourceMarkRelease
  | evaluateHeapResize (shouldExpandIn : Bool)
  | expand (amount : Nat) (workers : Nat) (succeeded : Bool)
  | requestHeapShrink (amount : Nat)
  | schedule (intervalMillis : Nat)
  deriving DecidableEq, Repr

/-- Behaviour of the external `G1HeapSizingPolicy` collaborator for one
call of `evaluate_heap_resize(bool& expand)`.  The reference parameter is
given C++ out-parameter semantics: `assignsShouldExpand = some b` means
the policy writes `b` into the caller's variable, `none` means it leaves
the variable untouched; `amount` is the returned `size_t`. -/
structure PolicyBehavior where
  assignsShouldExpand : Option Bool
  amount : Nat
  deriving DecidableEq, Repr

/-- `size_t G1HeapSizingPolicy::evaluate_heap_resize(bool& expand)` seen
from the caller: given the value the out-parameter holds on entry, return
the value it holds on exit together with the returned amount. -/
def PolicyBehavior.evaluate_heap_resize (p : PolicyBehavior) (shouldExpandIn : Bool) :
    Bool × Nat :=
  (p.assignsShouldExpand.getD shouldExpandIn, p.amount)

/-- The environment one invocation of `execute` runs in: the two global
configuration variables, the sizing-policy behaviour, the id of the
worker set returned by `_g1h->workers()`, and whether the heap manager's
`expand` succeeds (insufficient backing memory makes it fail). -/
structure Env where
  g1UseTimeBasedHeapSizing : Bool
  g1TimeBasedEvaluationIntervalMillis : Nat
  policy : PolicyBehavior
  workers : Nat
  expandSucceeds : Bool
  deriving DecidableEq, Repr

/-- The same environment with a different current value of the global
interval `G1TimeBasedEvaluationIntervalMillis` (it can be reconfigured
between invocations). -/
def Env.setInterval (env : Env) (i : Nat) : Env :=
  ⟨env.g1UseTimeBasedHeapSizing, i, env.policy, env.workers, env.expandSucceeds⟩

/-- The same environment with a different outcome for the heap manager's
`expand`. -/
def Env.setExpandSucceeds (env : Env) (b : Bool) : Env :=
  ⟨env.g1UseTimeBasedHeapSizing, env.g1TimeBasedEvaluationIntervalMillis,
   env.policy, env.workers, b⟩

/-- Modelled from the spec: the class declaration
(`g1HeapEvaluationTask.hpp`) is not among the visible sources.  Per §3 of
the design the task holds exactly two non-owning references and no other
field, which matches the `.cpp` constructor initializer list
`_g1h(g1h), _heap_sizing_policy(heap_sizing_policy)`.  The references are
modelled as abstract ids. -/
structure G1HeapEvaluationTask where
  g1h : Nat
  heap_sizing_policy : Nat
  deriving DecidableEq, Repr

/-- The constructor `G1HeapEvaluationTask(G1CollectedHeap* g1h,
G1HeapSizingPolicy* heap_sizing_policy)`: it stores the two references
and nothing else (in particular no interval value is captured). -/
def G1HeapEvaluationTask.make (g1h heap_sizing_policy : Nat) : G1HeapEvaluationTask :=
  ⟨g1h, heap_sizing_policy⟩

/-- `void G1HeapEvaluationTask::execute()`, embedded line by line.  The
result is the task state after the call (the body never assigns a field,
so it is returned unchanged) and the ordered trace of observable actions.
The early `return` when `!G1UseTimeBasedHeapSizing` happens before the
`ResourceMark` is constructed; on every other path the `ResourceMark`
destructor runs when the function returns, i.e. after `schedule`. -/
def G1HeapEvaluationTask.execute (t : G1HeapEvaluationTask) (env : Env) :
    G1HeapEvaluationTask × List Event :=
  (t,
    Event.logDebug "Starting heap evaluation" ::
    (if !env.g1UseTimeBasedHeapSizing then
      []
    else
      Event.resourceMarkAcquire ::
      (let should_expand0 : Bool := false
       let call := env.policy.evaluate_heap_resize should_expand0
       let should_expand := call.1
       let resize_amount := call.2
       Event.evaluateHeapResize should_expand0 ::
       ((if resize_amount > 0 then
           if should_expand then
             [Event.logDebug "Expanding heap",
              Event.expand resize_amount env.workers env.expandSucceeds]
           else
             [Event.logDebug "Shrinking heap",
              Event.requestHeapShrink resize_amount]
         else []) ++
        [Event.schedule env.g1TimeBasedEvaluationIntervalMillis,
         Event.resourceMarkRelease]))))

/-- Number of `expand` calls in a trace. -/
def countExpand (tr : List Event) : Nat :=
  (tr.filter fun e => match e with
    | Event.expand _ _ _ => true
    | _ => false).length

/-- Number of `request_heap_shrink` calls in a trace. -/
def countShrink (tr : List Event) : Nat :=
  (tr.filter fun e => match e with
    | Event.requestHeapShrink _ => true
    | _ => false).length

/-- Number of `schedule` calls in a trace. -/
def countSchedule (tr : List Event) : Nat :=
  (tr.filter fun e => match e with
    | Event.schedule _ => true
    | _ => false).length

/-- Number of `evaluate_heap_resize` calls in a trace. -/
def countEvaluate (tr : List Event) : Nat :=
  (tr.filter fun e => match e with
    | Event.evaluateHeapResize _ => true
    | _ => false).length

/-- Number of `ResourceMark` constructions in a trace. -/
def countAcquire (tr : List Event) : Nat :=
  (tr.filter fun e => match e with
    | Event.resourceMarkAcquire => true
    | _ => false).length

/-- Number of `ResourceMark` destructions in a trace. -/
def countRelease (tr : List Event) : Nat :=
  (tr.filter fun e => match e with
    | Event.resourceMarkRelease => true
    | _ => false).length

/-- The arguments of the `expand` calls in a trace, in order. -/
def expandCalls (tr : List Event) : List (Nat × Nat) :=
  tr.filterMap fun e => match e with
    | Event.expand a w _ => some (a, w)
    | _ => none

/-- The arguments of the `request_heap_shrink` calls in a trace, in order. -/
def shrinkCalls (tr : List Event) : List Nat :=
  tr.filterMap fun e => match e with
    | Event.requestHeapShrink a => some a
    | _ => none

/-- The intervals passed to `schedule` in a trace, in order. -/
def scheduledIntervals (tr : List Event) : List Nat :=
  tr.filterMap fun e => match e with
    | Event.schedule i => some i
    | _ => none

/-- Erase the success bit recorded on `expand` events, leaving everything
the body of `execute` actually depends on. -/
def eraseExpandResult : Event → Event
  | Event.expand a w _ => Event.expand a w true
  | e => e

/-- A concrete environment used to instantiate the universally quantified
theorems: flag as given, interval 500 ms, a policy that assigns the
direction `dir` and returns `amt`, worker set 1, `expand` succeeding. -/
def sampleEnv (flag : Bool) (dir : Option Bool) (amt : Nat) : Env :=
  ⟨flag, 500, ⟨dir, amt⟩, 1, true⟩

/-- C1 is refuted by the code: with the time-based-sizing flag disabled,
`execute` returns early and performs zero `schedule` calls, not exactly
one. -/
theorem execute_disabled_skips_reschedule_cex :
    countSchedule ((G1HeapEvaluationTask.make 0 0).execute
      (sampleEnv false none 0)).2 = 0 := by
  rfl

/-- C1 (amended): with the time-based-sizing flag disabled, `execute`
performs no heap action and also performs no `schedule` call — it returns
early without re-arming, so the recurring loop stops. -/
theorem execute_disabled_is_early_return (t : G1HeapEvaluationTask) (env : Env)
    (hflag : env.g1UseTimeBasedHeapSizing = false) :
    countExpand (t.execute env).2 = 0 ∧
    countShrink (t.execute env).2 = 0 ∧
    countSchedule (t.execute env).2 = 0 := by
  simp [G1HeapEvaluationTask.execute, hflag, countExpand, countShrink, countSchedule]

/-- Witness for the amended C1 at a concrete disabled-flag environment. -/
theorem execute_disabled_is_early_return_witness :
    countExpand ((G1HeapEvaluationTask.make 3 4).execute
      (sampleEnv false (some true) 7)).2 = 0 ∧
    countShrink ((G1HeapEvaluationTask.make 3 4).execute
      (sampleEnv false (some true) 7)).2 = 0 ∧
    countSchedule ((G1HeapEvaluationTask.make 3 4).execute
      (sampleEnv false (some true) 7)).2 = 0 :=
  execute_disabled_is_early_return (G1HeapEvaluationTask.make 3 4)
    (sampleEnv false (some true) 7) rfl

/-- C8: every `ResourceMark` constructed during a cycle is destroyed by
the time `execute` returns, on every path — the number of acquisitions in
the trace always equals the number of releases (both are 0 on the
disabled-flag early return, which exits before the mark is constructed,
and 1 on every enabled path, including the one where `expand` fails). -/
theorem execute_resource_mark_balanced (t : G1HeapEvaluationTask) (env : Env) :
    countAcquire (t.execute env).2 = countRelease (t.execute env).2 := by
  obtain ⟨flag, interval, ⟨assigns, amount⟩, workers, succ⟩ := env
  rcases Nat.eq_zero_or_pos amount with h | h <;>
    cases flag <;>
    rcases assigns with _ | b <;>
    try cases b
  all_goals
    simp [G1HeapEvaluationTask.execute, PolicyBehavior.evaluate_heap_resize,
      countAcquire, countRelease, h]

/-- C2: with the flag enabled and a policy decision whose direction is
Grow and whose amount is positive, `execute` calls `expand` exactly once,
passing exactly that amount and the heap's worker set, calls `schedule`
exactly once, and the `schedule` call happens whether `expand` succeeds
or fails. -/
theorem execute_grow_expands_once (t : G1HeapEvaluationTask) (env : Env)
    (hflag : env.g1UseTimeBasedHeapSizing = true)
    (hdir : (env.policy.evaluate_heap_resize false).1 = true)
    (hamt : 0 < (env.policy.evaluate_heap_resize false).2) :
    expandCalls (t.execute env).2 =
      [((env.policy.evaluate_heap_resize false).2, env.workers)] ∧
    countSchedule (t.execute env).2 = 1 ∧
    countSchedule (t.execute (env.setExpandSucceeds true)).2 = 1 ∧
    countSchedule (t.execute (env.setExpandSucceeds false)).2 = 1 := by
  obtain ⟨flag, interval, ⟨assigns, amount⟩, workers, succ⟩ := env
  simp only [PolicyBehavior.evaluate_heap_resize] at hdir hamt ⊢
  subst hflag
  rcases assigns with _ | b
  · simp at hdir
  · simp only [Option.getD_some] at hdir
    subst hdir
    refine ⟨?_, ?_, ?_, ?_⟩ <;>
      simp [G1HeapEvaluationTask.execute, PolicyBehavior.evaluate_heap_resize,
        Env.setExpandSucceeds, expandCalls, countSchedule, hamt]

/-- Witness for C2 at a concrete grow decision of 1048576 bytes. -/
theorem execute_grow_expands_once_witness :
    expandCalls ((G1HeapEvaluationTask.make 1 2).execute
      (sampleEnv true (some true) 1048576)).2 = [(1048576, 1)] ∧
    countSchedule ((G1HeapEvaluationTask.make 1 2).execute
      (sampleEnv true (some true) 1048576)).2 = 1 ∧
    countSchedule ((G1HeapEvaluationTask.make 1 2).execute
      ((sampleEnv true (some true) 1048576).setExpandSucceeds true)).2 = 1 ∧
    countSchedule ((G1HeapEvaluationTask.make 1 2).execute
      ((sampleEnv true (some true) 1048576).setExpandSucceeds false)).2 = 1 :=
  execute_grow_expands_once _ _ rfl rfl (by decide)

/-- C3: with the flag enabled and a policy decision whose direction is
Shrink and whose amount is positive, `execute` issues exactly one shrink
request with exactly that amount, never calls `expand`, and calls
`schedule` exactly once. -/
theorem execute_shrink_requests_once (t : G1HeapEvaluationTask) (env : Env)
    (hflag : env.g1UseTimeBasedHeapSizing = true)
    (hdir : (env.policy.evaluate_heap_resize false).1 = false)
    (hamt : 0 < (env.policy.evaluate_heap_resize false).2) :
    shrinkCalls (t.execute env).2 = [(env.policy.evaluate_heap_resize false).2] ∧
    countExpand (t.execute env).2 = 0 ∧
    countSchedule (t.execute env).2 = 1 := by
  obtain ⟨flag, interval, ⟨assigns, amount⟩, workers, succ⟩ := env
  simp only [PolicyBehavior.evaluate_heap_resize] at hdir hamt ⊢
  subst hflag
  rcases assigns with _ | b
  · refine ⟨?_, ?_, ?_⟩ <;>
      simp [G1HeapEvaluationTask.execute, PolicyBehavior.evaluate_heap_resize,
        shrinkCalls, countExpand, countSchedule, hamt]
  · simp only [Option.getD_some] at hdir
    subst hdir
    refine ⟨?_, ?_, ?_⟩ <;>
      simp [G1HeapEvaluationTask.execute, PolicyBehavior.evaluate_heap_resize,
        shrinkCalls, countExpand, countSchedule, hamt]

/-- Witness for C3 at a concrete shrink decision of 2097152 bytes. -/
theorem execute_shrink_requests_once_witness :
    shrinkCalls ((G1HeapEvaluationTask.make 1 2).execute
      (sampleEnv true (some false) 2097152)).2 = [2097152] ∧
    countExpand ((G1HeapEvaluationTask.make 1 2).execute
      (sampleEnv true (some false) 2097152)).2 = 0 ∧
    countSchedule ((G1HeapEvaluationTask.make 1 2).execute
      (sampleEnv true (some false) 2097152)).2 = 1 :=
  execute_shrink_requests_once _ _ rfl rfl (by decide)

/-- C4: with the flag enabled and a policy decision whose amount is zero,
`execute` performs no `expand` call and no shrink request, whatever the
direction flag holds, and still calls `schedule` exactly once. -/
theorem execute_zero_amount_no_action (t : G1HeapEvaluationTask) (env : Env)
    (hflag : env.g1UseTimeBasedHeapSizing = true)
    (hamt : (env.policy.evaluate_heap_resize false).2 = 0) :
    countExpand (t.execute env).2 = 0 ∧
    countShrink (t.execute env).2 = 0 ∧
    countSchedule (t.execute env).2 = 1 := by
  obtain ⟨flag, interval, ⟨assigns, amount⟩, workers, succ⟩ := env
  simp only [PolicyBehavior.evaluate_heap_resize] at hamt
  subst hflag
  subst hamt
  refine ⟨?_, ?_, ?_⟩ <;>
    simp [G1HeapEvaluationTask.execute, PolicyBehavior.evaluate_heap_resize,
      countExpand, countShrink, countSchedule]

/-- Witness for C4 at a zero-amount decision carrying direction Grow. -/
theorem execute_zero_amount_no_action_witness :
    countExpand ((G1HeapEvaluationTask.make 1 2).execute
      (sampleEnv true (some true) 0)).2 = 0 ∧
    countShrink ((G1HeapEvaluationTask.make 1 2).execute
      (sampleEnv true (some true) 0)).2 = 0 ∧
    countSchedule ((G1HeapEvaluationTask.make 1 2).execute
      (sampleEnv true (some true) 0)).2 = 1 :=
  execute_zero_amount_no_action _ _ rfl rfl

/-- C5: no collaborator failure escapes `execute` — with the flag enabled
the body is a total function that calls `expand` at most once (no retry
inside a cycle), calls `schedule` exactly once, and performs exactly the
same sequence of actions whether `expand` succeeds or fails. -/
theorem execute_absorbs_expand_failure (t : G1HeapEvaluationTask) (env : Env)
    (hflag : env.g1UseTimeBasedHeapSizing = true) :
    countExpand (t.execute env).2 ≤ 1 ∧
    countSchedule (t.execute env).2 = 1 ∧
    (t.execute (env.setExpandSucceeds true)).2.map eraseExpandResult =
      (t.execute (env.setExpandSucceeds false)).2.map eraseExpandResult := by
  obtain ⟨flag, interval, ⟨assigns, amount⟩, workers, succ⟩ := env
  subst hflag
  rcases Nat.eq_zero_or_pos amount with h | h <;>
    rcases assigns with _ | b <;>
    try cases b
  all_goals
    refine ⟨?_, ?_, ?_⟩ <;>
      simp [G1HeapEvaluationTask.execute, PolicyBehavior.evaluate_heap_resize,
        Env.setExpandSucceeds, countExpand, countSchedule, eraseExpandResult, h]

/-- Witness for C5 at a grow decision whose expand fails. -/
theorem execute_absorbs_expand_failure_witness :
    countExpand ((G1HeapEvaluationTask.make 1 2).execute
      (sampleEnv true (some true) 4096)).2 ≤ 1 ∧
    countSchedule ((G1HeapEvaluationTask.make 1 2).execute
      (sampleEnv true (some true) 4096)).2 = 1 ∧
    ((G1HeapEvaluationTask.make 1 2).execute
        ((sampleEnv true (some true) 4096).setExpandSucceeds true)).2.map eraseExpandResult =
      ((G1HeapEvaluationTask.make 1 2).execute
        ((sampleEnv true (some true) 4096).setExpandSucceeds false)).2.map eraseExpandResult :=
  execute_absorbs_expand_failure _ _ rfl

/-- C6: the interval passed to `schedule` is the value the global
`G1TimeBasedEvaluationIntervalMillis` holds at the moment of the call in
that invocation — the task stores no interval at construction, so two
invocations of the same task under different configured intervals each
schedule with their own current value. -/
theorem execute_schedules_current_interval (t : G1HeapEvaluationTask) (env : Env)
    (i j : Nat) (hflag : env.g1UseTimeBasedHeapSizing = true) :
    scheduledIntervals (t.execute (env.setInterval i)).2 = [i] ∧
    scheduledIntervals (t.execute (env.setInterval j)).2 = [j] := by
  obtain ⟨flag, interval, ⟨assigns, amount⟩, workers, succ⟩ := env
  subst hflag
  rcases Nat.eq_zero_or_pos amount with h | h <;>
    rcases assigns with _ | b <;>
    try cases b
  all_goals
    constructor <;>
      simp [G1HeapEvaluationTask.execute, PolicyBehavior.evaluate_heap_resize,
        Env.setInterval, scheduledIntervals, h]

/-- Witness for C6: the same task scheduled under intervals 250 and 1000. -/
theorem execute_schedules_current_interval_witness :
    scheduledIntervals ((G1HeapEvaluationTask.make 1 2).execute
      ((sampleEnv true none 0).setInterval 250)).2 = [250] ∧
    scheduledIntervals ((G1HeapEvaluationTask.make 1 2).execute
      ((sampleEnv true none 0).setInterval 1000)).2 = [1000] :=
  execute_schedules_current_interval _ _ 250 1000 rfl

/-- C7: with the flag disabled, `execute` makes no call into the sizing
policy, no `expand` call and no shrink request — the early return happens
before any collaborator is touched. -/
theorem execute_disabled_no_collaborator_calls (t : G1HeapEvaluationTask)
    (env : Env) (hflag : env.g1UseTimeBasedHeapSizing = false) :
    countEvaluate (t.execute env).2 = 0 ∧
    countExpand (t.execute env).2 = 0 ∧
    countShrink (t.execute env).2 = 0 := by
  refine ⟨?_, ?_, ?_⟩ <;>
    simp [G1HeapEvaluationTask.execute, hflag, countEvaluate, countExpand,
      countShrink]

/-- Witness for C7 at a concrete disabled-flag environment. -/
theorem execute_disabled_no_collaborator_calls_witness :
    countEvaluate ((G1HeapEvaluationTask.make 1 2).execute
      (sampleEnv false (some true) 4096)).2 = 0 ∧
    countExpand ((G1HeapEvaluationTask.make 1 2).execute
      (sampleEnv false (some true) 4096)).2 = 0 ∧
    countShrink ((G1HeapEvaluationTask.make 1 2).execute
      (sampleEnv false (some true) 4096)).2 = 0 :=
  execute_disabled_no_collaborator_calls _ _ rfl

/-- C10: the `should_expand` out-parameter is set to `false` before the
policy call — the trace records the call entered with `false` — so a
policy that returns a positive amount without assigning the out-parameter
makes `execute` issue a shrink request: shrink is the default direction. -/
theorem execute_shrink_is_default_direction (t : G1HeapEvaluationTask)
    (env : Env) (hflag : env.g1UseTimeBasedHeapSizing = true)
    (hnoassign : env.policy.assignsShouldExpand = none)
    (hamt : 0 < env.policy.amount) :
    Event.evaluateHeapResize false ∈ (t.execute env).2 ∧
    shrinkCalls (t.execute env).2 = [env.policy.amount] ∧
    countExpand (t.execute env).2 = 0 := by
  obtain ⟨flag, interval, ⟨assigns, amount⟩, workers, succ⟩ := env
  subst hflag
  simp only at hnoassign hamt
  subst hnoassign
  refine ⟨?_, ?_, ?_⟩ <;>
    simp [G1HeapEvaluationTask.execute, PolicyBehavior.evaluate_heap_resize,
      shrinkCalls, countExpand, hamt]

/-- Witness for C10: a policy that leaves the out-parameter alone and
returns 8192 bytes makes the task shrink. -/
theorem execute_shrink_is_default_direction_witness :
    Event.evaluateHeapResize false ∈
      ((G1HeapEvaluationTask.make 1 2).execute (sampleEnv true none 8192)).2 ∧
    shrinkCalls ((G1HeapEvaluationTask.make 1 2).execute
      (sampleEnv true none 8192)).2 = [8192] ∧
    countExpand ((G1HeapEvaluationTask.make 1 2).execute
      (sampleEnv true none 8192)).2 = 0 :=
  execute_shrink_is_default_direction _ _ rfl rfl (by decide)

/-- C9: `execute` leaves the task's own state unchanged — the two
references stored at construction are returned exactly as they were, and
the task has no other field to mutate. -/
theorem execute_preserves_task_state (t : G1HeapEvaluationTask) (env : Env) :
    (t.execute env).1 = t := by
  rfl

end G1Heap
